import Mathlib

/-
  Verification of the splashsurf surface reconstruction library.

  The definitions below are a shallow embedding of the library sources:
  the marching cubes lookup table and its accessors
  (src/splashsurf_lib/src/marching_cubes/marching_cubes_lut.rs),
  the reconstruction pipeline entry points (src/splashsurf_lib/src/lib.rs)
  and the reusable workspace (src/splashsurf_lib/src/workspace.rs).
  Machine integers are modelled as Nat/Int, Rust floating point values as
  rationals, fallible code as Option/Except, and mutation as explicit
  state passing.
-/

namespace Splashsurf

/-- Row 0 of the classic marching cubes table. -/
def mcRow0 : List Int := [-1, -1, -1, -1, -1, -1, -1, -1, -1, -1, -1, -1, -1, -1, -1, -1]

/-- Row 1 of the classic marching cubes table. -/
def mcRow1 : List Int := [ 0,  8,  3, -1, -1, -1, -1, -1, -1, -1, -1, -1, -1, -1, -1, -1]

/-- Row 2 of the classic marching cubes table. -/
def mcRow2 : List Int := [ 0,  1,  9, -1, -1, -1, -1, -1, -1, -1, -1, -1, -1, -1, -1, -1]

/-- Row 3 of the classic marching cubes table. -/
def mcRow3 : List Int := [ 1,  8,  3,  9,  8,  1, -1, -1, -1, -1, -1, -1, -1, -1, -1, -1]

/-- Row 4 of the classic marching cubes table. -/
def mcRow4 : List Int := [ 1,  2, 10, -1, -1, -1, -1, -1, -1, -1, -1, -1, -1, -1, -1, -1]

/-- Row 5 of the classic marching cubes table. -/
def mcRow5 : List Int := [ 0,  8,  3,  1,  2, 10, -1, -1, -1, -1, -1, -1, -1, -1, -1, -1]

/-- Row 6 of the classic marching cubes table. -/
def mcRow6 : List Int := [ 9,  2, 10,  0,  2,  9, -1, -1, -1, -1, -1, -1, -1, -1, -1, -1]

/-- Row 7 of the classic marching cubes table. -/
def mcRow7 : List Int := [ 2,  8,  3,  2, 10,  8, 10,  9,  8, -1, -1, -1, -1, -1, -1, -1]

/-- Row 8 of the classic marching cubes table. -/
def mcRow8 : List Int := [ 3, 11,  2, -1, -1, -1, -1, -1, -1, -1, -1, -1, -1, -1, -1, -1]

/-- Row 9 of the classic marching cubes table. -/
def mcRow9 : List Int := [ 0, 11,  2,  8, 11,  0, -1, -1, -1, -1, -1, -1, -1, -1, -1, -1]

/-- Row 10 of the classic marching cubes table. -/
def mcRow10 : List Int := [ 1,  9,  0,  2,  3, 11, -1, -1, -1, -1, -1, -1, -1, -1, -1, -1]

/-- Row 11 of the classic marching cubes table. -/
def mcRow11 : List Int := [ 1, 11,  2,  1,  9, 11,  9,  8, 11, -1, -1, -1, -1, -1, -1, -1]

/-- Row 12 of the classic marching cubes table. -/
def mcRow12 : List Int := [ 3, 10,  1, 11, 10,  3, -1, -1, -1, -1, -1, -1, -1, -1, -1, -1]

/-- Row 13 of the classic marching cubes table. -/
def mcRow13 : List Int := [ 0, 10,  1,  0,  8, 10,  8, 11, 10, -1, -1, -1, -1, -1, -1, -1]

/-- Row 14 of the classic marching cubes table. -/
def mcRow14 : List Int := [ 3,  9,  0,  3, 11,  9, 11, 10,  9, -1, -1, -1, -1, -1, -1, -1]

/-- Row 15 of the classic marching cubes table. -/
def mcRow15 : List Int := [ 9,  8, 10, 10,  8, 11, -1, -1, -1, -1, -1, -1, -1, -1, -1, -1]

/-- Row 16 of the classic marching cubes table. -/
def mcRow16 : List Int := [ 4,  7,  8, -1, -1, -1, -1, -1, -1, -1, -1, -1, -1, -1, -1, -1]

/-- Row 17 of the classic marching cubes table. -/
def mcRow17 : List Int := [ 4,  3,  0,  7,  3,  4, -1, -1, -1, -1, -1, -1, -1, -1, -1, -1]

/-- Row 18 of the classic marching cubes table. -/
def mcRow18 : List Int := [ 0,  1,  9,  8,  4,  7, -1, -1, -1, -1, -1, -1, -1, -1, -1, -1]

/-- Row 19 of the classic marching cubes table. -/
def mcRow19 : List Int := [ 4,  1,  9,  4,  7,  1,  7,  3,  1, -1, -1, -1, -1, -1, -1, -1]

/-- Row 20 of the classic marching cubes table. -/
def mcRow20 : List Int := [ 1,  2, 10,  8,  4,  7, -1, -1, -1, -1, -1, -1, -1, -1, -1, -1]

/-- Row 21 of the classic marching cubes table. -/
def mcRow21 : List Int := [ 3,  4,  7,  3,  0,  4,  1,  2, 10, -1, -1, -1, -1, -1, -1, -1]

/-- Row 22 of the classic marching cubes table. -/
def mcRow22 : List Int := [ 9,  2, 10,  9,  0,  2,  8,  4,  7, -1, -1, -1, -1, -1, -1, -1]

/-- Row 23 of the classic marching cubes table. -/
def mcRow23 : List Int := [ 2, 10,  9,  2,  9,  7,  2,  7,  3,  7,  9,  4, -1, -1, -1, -1]

/-- Row 24 of the classic marching cubes table. -/
def mcRow24 : List Int := [ 8,  4,  7,  3, 11,  2, -1, -1, -1, -1, -1, -1, -1, -1, -1, -1]

/-- Row 25 of the classic marching cubes table. -/
def mcRow25 : List Int := [11,  4,  7, 11,  2,  4,  2,  0,  4, -1, -1, -1, -1, -1, -1, -1]

/-- Row 26 of the classic marching cubes table. -/
def mcRow26 : List Int := [ 9,  0,  1,  8,  4,  7,  2,  3, 11, -1, -1, -1, -1, -1, -1, -1]

/-- Row 27 of the classic marching cubes table. -/
def mcRow27 : List Int := [ 4,  7, 11,  9,  4, 11,  9, 11,  2,  9,  2,  1, -1, -1, -1, -1]

/-- Row 28 of the classic marching cubes table. -/
def mcRow28 : List Int := [ 3, 10,  1,  3, 11, 10,  7,  8,  4, -1, -1, -1, -1, -1, -1, -1]

/-- Row 29 of the classic marching cubes table. -/
def mcRow29 : List Int := [ 1, 11, 10,  1,  4, 11,  1,  0,  4,  7, 11,  4, -1, -1, -1, -1]

/-- Row 30 of the classic marching cubes table. -/
def mcRow30 : List Int := [ 4,  7,  8,  9,  0, 11,  9, 11, 10, 11,  0,  3, -1, -1, -1, -1]

/-- Row 31 of the classic marching cubes table. -/
def mcRow31 : List Int := [ 4,  7, 11,  4, 11,  9,  9, 11, 10, -1, -1, -1, -1, -1, -1, -1]

/-- Row 32 of the classic marching cubes table. -/
def mcRow32 : List Int := [ 9,  5,  4, -1, -1, -1, -1, -1, -1, -1, -1, -1, -1, -1, -1, -1]

/-- Row 33 of the classic marching cubes table. -/
def mcRow33 : List Int := [ 9,  5,  4,  0,  8,  3, -1, -1, -1, -1, -1, -1, -1, -1, -1, -1]

/-- Row 34 of the classic marching cubes table. -/
def mcRow34 : List Int := [ 0,  5,  4,  1,  5,  0, -1, -1, -1, -1, -1, -1, -1, -1, -1, -1]

/-- Row 35 of the classic marching cubes table. -/
def mcRow35 : List Int := [ 8,  5,  4,  8,  3,  5,  3,  1,  5, -1, -1, -1, -1, -1, -1, -1]

/-- Row 36 of the classic marching cubes table. -/
def mcRow36 : List Int := [ 1,  2, 10,  9,  5,  4, -1, -1, -1, -1, -1, -1, -1, -1, -1, -1]

/-- Row 37 of the classic marching cubes table. -/
def mcRow37 : List Int := [ 3,  0,  8,  1,  2, 10,  4,  9,  5, -1, -1, -1, -1, -1, -1, -1]

/-- Row 38 of the classic marching cubes table. -/
def mcRow38 : List Int := [ 5,  2, 10,  5,  4,  2,  4,  0,  2, -1, -1, -1, -1, -1, -1, -1]

/-- Row 39 of the classic marching cubes table. -/
def mcRow39 : List Int := [ 2, 10,  5,  3,  2,  5,  3,  5,  4,  3,  4,  8, -1, -1, -1, -1]

/-- Row 40 of the classic marching cubes table. -/
def mcRow40 : List Int := [ 9,  5,  4,  2,  3, 11, -1, -1, -1, -1, -1, -1, -1, -1, -1, -1]

/-- Row 41 of the classic marching cubes table. -/
def mcRow41 : List Int := [ 0, 11,  2,  0,  8, 11,  4,  9,  5, -1, -1, -1, -1, -1, -1, -1]

/-- Row 42 of the classic marching cubes table. -/
def mcRow42 : List Int := [ 0,  5,  4,  0,  1,  5,  2,  3, 11, -1, -1, -1, -1, -1, -1, -1]

/-- Row 43 of the classic marching cubes table. -/
def mcRow43 : List Int := [ 2,  1,  5,  2,  5,  8,  2,  8, 11,  4,  8,  5, -1, -1, -1, -1]

/-- Row 44 of the classic marching cubes table. -/
def mcRow44 : List Int := [10,  3, 11, 10,  1,  3,  9,  5,  4, -1, -1, -1, -1, -1, -1, -1]

/-- Row 45 of the classic marching cubes table. -/
def mcRow45 : List Int := [ 4,  9,  5,  0,  8,  1,  8, 10,  1,  8, 11, 10, -1, -1, -1, -1]

/-- Row 46 of the classic marching cubes table. -/
def mcRow46 : List Int := [ 5,  4,  0,  5,  0, 11,  5, 11, 10, 11,  0,  3, -1, -1, -1, -1]

/-- Row 47 of the classic marching cubes table. -/
def mcRow47 : List Int := [ 5,  4,  8,  5,  8, 10, 10,  8, 11, -1, -1, -1, -1, -1, -1, -1]

/-- Row 48 of the classic marching cubes table. -/
def mcRow48 : List Int := [ 9,  7,  8,  5,  7,  9, -1, -1, -1, -1, -1, -1, -1, -1, -1, -1]

/-- Row 49 of the classic marching cubes table. -/
def mcRow49 : List Int := [ 9,  3,  0,  9,  5,  3,  5,  7,  3, -1, -1, -1, -1, -1, -1, -1]

/-- Row 50 of the classic marching cubes table. -/
def mcRow50 : List Int := [ 0,  7,  8,  0,  1,  7,  1,  5,  7, -1, -1, -1, -1, -1, -1, -1]

/-- Row 51 of the classic marching cubes table. -/
def mcRow51 : List Int := [ 1,  5,  3,  3,  5,  7, -1, -1, -1, -1, -1, -1, -1, -1, -1, -1]

/-- Row 52 of the classic marching cubes table. -/
def mcRow52 : List Int := [ 9,  7,  8,  9,  5,  7, 10,  1,  2, -1, -1, -1, -1, -1, -1, -1]

/-- Row 53 of the classic marching cubes table. -/
def mcRow53 : List Int := [10,  1,  2,  9,  5,  0,  5,  3,  0,  5,  7,  3, -1, -1, -1, -1]

/-- Row 54 of the classic marching cubes table. -/
def mcRow54 : List Int := [ 8,  0,  2,  8,  2,  5,  8,  5,  7, 10,  5,  2, -1, -1, -1, -1]

/-- Row 55 of the classic marching cubes table. -/
def mcRow55 : List Int := [ 2, 10,  5,  2,  5,  3,  3,  5,  7, -1, -1, -1, -1, -1, -1, -1]

/-- Row 56 of the classic marching cubes table. -/
def mcRow56 : List Int := [ 7,  9,  5,  7,  8,  9,  3, 11,  2, -1, -1, -1, -1, -1, -1, -1]

/-- Row 57 of the classic marching cubes table. -/
def mcRow57 : List Int := [ 9,  5,  7,  9,  7,  2,  9,  2,  0,  2,  7, 11, -1, -1, -1, -1]

/-- Row 58 of the classic marching cubes table. -/
def mcRow58 : List Int := [ 2,  3, 11,  0,  1,  8,  1,  7,  8,  1,  5,  7, -1, -1, -1, -1]

/-- Row 59 of the classic marching cubes table. -/
def mcRow59 : List Int := [11,  2,  1, 11,  1,  7,  7,  1,  5, -1, -1, -1, -1, -1, -1, -1]

/-- Row 60 of the classic marching cubes table. -/
def mcRow60 : List Int := [ 9,  5,  8,  8,  5,  7, 10,  1,  3, 10,  3, 11, -1, -1, -1, -1]

/-- Row 61 of the classic marching cubes table. -/
def mcRow61 : List Int := [ 5,  7,  0,  5,  0,  9,  7, 11,  0,  1,  0, 10, 11, 10,  0, -1]

/-- Row 62 of the classic marching cubes table. -/
def mcRow62 : List Int := [11, 10,  0, 11,  0,  3, 10,  5,  0,  8,  0,  7,  5,  7,  0, -1]

/-- Row 63 of the classic marching cubes table. -/
def mcRow63 : List Int := [11, 10,  5,  7, 11,  5, -1, -1, -1, -1, -1, -1, -1, -1, -1, -1]

/-- Row 64 of the classic marching cubes table. -/
def mcRow64 : List Int := [10,  6,  5, -1, -1, -1, -1, -1, -1, -1, -1, -1, -1, -1, -1, -1]

/-- Row 65 of the classic marching cubes table. -/
def mcRow65 : List Int := [ 0,  8,  3,  5, 10,  6, -1, -1, -1, -1, -1, -1, -1, -1, -1, -1]

/-- Row 66 of the classic marching cubes table. -/
def mcRow66 : List Int := [ 9,  0,  1,  5, 10,  6, -1, -1, -1, -1, -1, -1, -1, -1, -1, -1]

/-- Row 67 of the classic marching cubes table. -/
def mcRow67 : List Int := [ 1,  8,  3,  1,  9,  8,  5, 10,  6, -1, -1, -1, -1, -1, -1, -1]

/-- Row 68 of the classic marching cubes table. -/
def mcRow68 : List Int := [ 1,  6,  5,  2,  6,  1, -1, -1, -1, -1, -1, -1, -1, -1, -1, -1]

/-- Row 69 of the classic marching cubes table. -/
def mcRow69 : List Int := [ 1,  6,  5,  1,  2,  6,  3,  0,  8, -1, -1, -1, -1, -1, -1, -1]

/-- Row 70 of the classic marching cubes table. -/
def mcRow70 : List Int := [ 9,  6,  5,  9,  0,  6,  0,  2,  6, -1, -1, -1, -1, -1, -1, -1]

/-- Row 71 of the classic marching cubes table. -/
def mcRow71 : List Int := [ 5,  9,  8,  5,  8,  2,  5,  2,  6,  3,  2,  8, -1, -1, -1, -1]

/-- Row 72 of the classic marching cubes table. -/
def mcRow72 : List Int := [ 2,  3, 11, 10,  6,  5, -1, -1, -1, -1, -1, -1, -1, -1, -1, -1]

/-- Row 73 of the classic marching cubes table. -/
def mcRow73 : List Int := [11,  0,  8, 11,  2,  0, 10,  6,  5, -1, -1, -1, -1, -1, -1, -1]

/-- Row 74 of the classic marching cubes table. -/
def mcRow74 : List Int := [ 0,  1,  9,  2,  3, 11,  5, 10,  6, -1, -1, -1, -1, -1, -1, -1]

/-- Row 75 of the classic marching cubes table. -/
def mcRow75 : List Int := [ 5, 10,  6,  1,  9,  2,  9, 11,  2,  9,  8, 11, -1, -1, -1, -1]

/-- Row 76 of the classic marching cubes table. -/
def mcRow76 : List Int := [ 6,  3, 11,  6,  5,  3,  5,  1,  3, -1, -1, -1, -1, -1, -1, -1]

/-- Row 77 of the classic marching cubes table. -/
def mcRow77 : List Int := [ 0,  8, 11,  0, 11,  5,  0,  5,  1,  5, 11,  6, -1, -1, -1, -1]

/-- Row 78 of the classic marching cubes table. -/
def mcRow78 : List Int := [ 3, 11,  6,  0,  3,  6,  0,  6,  5,  0,  5,  9, -1, -1, -1, -1]

/-- Row 79 of the classic marching cubes table. -/
def mcRow79 : List Int := [ 6,  5,  9,  6,  9, 11, 11,  9,  8, -1, -1, -1, -1, -1, -1, -1]

/-- Row 80 of the classic marching cubes table. -/
def mcRow80 : List Int := [ 5, 10,  6,  4,  7,  8, -1, -1, -1, -1, -1, -1, -1, -1, -1, -1]

/-- Row 81 of the classic marching cubes table. -/
def mcRow81 : List Int := [ 4,  3,  0,  4,  7,  3,  6,  5, 10, -1, -1, -1, -1, -1, -1, -1]

/-- Row 82 of the classic marching cubes table. -/
def mcRow82 : List Int := [ 1,  9,  0,  5, 10,  6,  8,  4,  7, -1, -1, -1, -1, -1, -1, -1]

/-- Row 83 of the classic marching cubes table. -/
def mcRow83 : List Int := [10,  6,  5,  1,  9,  7,  1,  7,  3,  7,  9,  4, -1, -1, -1, -1]

/-- Row 84 of the classic marching cubes table. -/
def mcRow84 : List Int := [ 6,  1,  2,  6,  5,  1,  4,  7,  8, -1, -1, -1, -1, -1, -1, -1]

/-- Row 85 of the classic marching cubes table. -/
def mcRow85 : List Int := [ 1,  2,  5,  5,  2,  6,  3,  0,  4,  3,  4,  7, -1, -1, -1, -1]

/-- Row 86 of the classic marching cubes table. -/
def mcRow86 : List Int := [ 8,  4,  7,  9,  0,  5,  0,  6,  5,  0,  2,  6, -1, -1, -1, -1]

/-- Row 87 of the classic marching cubes table. -/
def mcRow87 : List Int := [ 7,  3,  9,  7,  9,  4,  3,  2,  9,  5,  9,  6,  2,  6,  9, -1]

/-- Row 88 of the classic marching cubes table. -/
def mcRow88 : List Int := [ 3, 11,  2,  7,  8,  4, 10,  6,  5, -1, -1, -1, -1, -1, -1, -1]

/-- Row 89 of the classic marching cubes table. -/
def mcRow89 : List Int := [ 5, 10,  6,  4,  7,  2,  4,  2,  0,  2,  7, 11, -1, -1, -1, -1]

/-- Row 90 of the classic marching cubes table. -/
def mcRow90 : List Int := [ 0,  1,  9,  4,  7,  8,  2,  3, 11,  5, 10,  6, -1, -1, -1, -1]

/-- Row 91 of the classic marching cubes table. -/
def mcRow91 : List Int := [ 9,  2,  1,  9, 11,  2,  9,  4, 11,  7, 11,  4,  5, 10,  6, -1]

/-- Row 92 of the classic marching cubes table. -/
def mcRow92 : List Int := [ 8,  4,  7,  3, 11,  5,  3,  5,  1,  5, 11,  6, -1, -1, -1, -1]

/-- Row 93 of the classic marching cubes table. -/
def mcRow93 : List Int := [ 5,  1, 11,  5, 11,  6,  1,  0, 11,  7, 11,  4,  0,  4, 11, -1]

/-- Row 94 of the classic marching cubes table. -/
def mcRow94 : List Int := [ 0,  5,  9,  0,  6,  5,  0,  3,  6, 11,  6,  3,  8,  4,  7, -1]

/-- Row 95 of the classic marching cubes table. -/
def mcRow95 : List Int := [ 6,  5,  9,  6,  9, 11,  4,  7,  9,  7, 11,  9, -1, -1, -1, -1]

/-- Row 96 of the classic marching cubes table. -/
def mcRow96 : List Int := [10,  4,  9,  6,  4, 10, -1, -1, -1, -1, -1, -1, -1, -1, -1, -1]

/-- Row 97 of the classic marching cubes table. -/
def mcRow97 : List Int := [ 4, 10,  6,  4,  9, 10,  0,  8,  3, -1, -1, -1, -1, -1, -1, -1]

/-- Row 98 of the classic marching cubes table. -/
def mcRow98 : List Int := [10,  0,  1, 10,  6,  0,  6,  4,  0, -1, -1, -1, -1, -1, -1, -1]

/-- Row 99 of the classic marching cubes table. -/
def mcRow99 : List Int := [ 8,  3,  1,  8,  1,  6,  8,  6,  4,  6,  1, 10, -1, -1, -1, -1]

/-- Row 100 of the classic marching cubes table. -/
def mcRow100 : List Int := [ 1,  4,  9,  1,  2,  4,  2,  6,  4, -1, -1, -1, -1, -1, -1, -1]

/-- Row 101 of the classic marching cubes table. -/
def mcRow101 : List Int := [ 3,  0,  8,  1,  2,  9,  2,  4,  9,  2,  6,  4, -1, -1, -1, -1]

/-- Row 102 of the classic marching cubes table. -/
def mcRow102 : List Int := [ 0,  2,  4,  4,  2,  6, -1, -1, -1, -1, -1, -1, -1, -1, -1, -1]

/-- Row 103 of the classic marching cubes table. -/
def mcRow103 : List Int := [ 8,  3,  2,  8,  2,  4,  4,  2,  6, -1, -1, -1, -1, -1, -1, -1]

/-- Row 104 of the classic marching cubes table. -/
def mcRow104 : List Int := [10,  4,  9, 10,  6,  4, 11,  2,  3, -1, -1, -1, -1, -1, -1, -1]

/-- Row 105 of the classic marching cubes table. -/
def mcRow105 : List Int := [ 0,  8,  2,  2,  8, 11,  4,  9, 10,  4, 10,  6, -1, -1, -1, -1]

/-- Row 106 of the classic marching cubes table. -/
def mcRow106 : List Int := [ 3, 11,  2,  0,  1,  6,  0,  6,  4,  6,  1, 10, -1, -1, -1, -1]

/-- Row 107 of the classic marching cubes table. -/
def mcRow107 : List Int := [ 6,  4,  1,  6,  1, 10,  4,  8,  1,  2,  1, 11,  8, 11,  1, -1]

/-- Row 108 of the classic marching cubes table. -/
def mcRow108 : List Int := [ 9,  6,  4,  9,  3,  6,  9,  1,  3, 11,  6,  3, -1, -1, -1, -1]

/-- Row 109 of the classic marching cubes table. -/
def mcRow109 : List Int := [ 8, 11,  1,  8,  1,  0, 11,  6,  1,  9,  1,  4,  6,  4,  1, -1]

/-- Row 110 of the classic marching cubes table. -/
def mcRow110 : List Int := [ 3, 11,  6,  3,  6,  0,  0,  6,  4, -1, -1, -1, -1, -1, -1, -1]

/-- Row 111 of the classic marching cubes table. -/
def mcRow111 : List Int := [ 6,  4,  8, 11,  6,  8, -1, -1, -1, -1, -1, -1, -1, -1, -1, -1]

/-- Row 112 of the classic marching cubes table. -/
def mcRow112 : List Int := [ 7, 10,  6,  7,  8, 10,  8,  9, 10, -1, -1, -1, -1, -1, -1, -1]

/-- Row 113 of the classic marching cubes table. -/
def mcRow113 : List Int := [ 0,  7,  3,  0, 10,  7,  0,  9, 10,  6,  7, 10, -1, -1, -1, -1]

/-- Row 114 of the classic marching cubes table. -/
def mcRow114 : List Int := [10,  6,  7,  1, 10,  7,  1,  7,  8,  1,  8,  0, -1, -1, -1, -1]

/-- Row 115 of the classic marching cubes table. -/
def mcRow115 : List Int := [10,  6,  7, 10,  7,  1,  1,  7,  3, -1, -1, -1, -1, -1, -1, -1]

/-- Row 116 of the classic marching cubes table. -/
def mcRow116 : List Int := [ 1,  2,  6,  1,  6,  8,  1,  8,  9,  8,  6,  7, -1, -1, -1, -1]

/-- Row 117 of the classic marching cubes table. -/
def mcRow117 : List Int := [ 2,  6,  9,  2,  9,  1,  6,  7,  9,  0,  9,  3,  7,  3,  9, -1]

/-- Row 118 of the classic marching cubes table. -/
def mcRow118 : List Int := [ 7,  8,  0,  7,  0,  6,  6,  0,  2, -1, -1, -1, -1, -1, -1, -1]

/-- Row 119 of the classic marching cubes table. -/
def mcRow119 : List Int := [ 7,  3,  2,  6,  7,  2, -1, -1, -1, -1, -1, -1, -1, -1, -1, -1]

/-- Row 120 of the classic marching cubes table. -/
def mcRow120 : List Int := [ 2,  3, 11, 10,  6,  8, 10,  8,  9,  8,  6,  7, -1, -1, -1, -1]

/-- Row 121 of the classic marching cubes table. -/
def mcRow121 : List Int := [ 2,  0,  7,  2,  7, 11,  0,  9,  7,  6,  7, 10,  9, 10,  7, -1]

/-- Row 122 of the classic marching cubes table. -/
def mcRow122 : List Int := [ 1,  8,  0,  1,  7,  8,  1, 10,  7,  6,  7, 10,  2,  3, 11, -1]

/-- Row 123 of the classic marching cubes table. -/
def mcRow123 : List Int := [11,  2,  1, 11,  1,  7, 10,  6,  1,  6,  7,  1, -1, -1, -1, -1]

/-- Row 124 of the classic marching cubes table. -/
def mcRow124 : List Int := [ 8,  9,  6,  8,  6,  7,  9,  1,  6, 11,  6,  3,  1,  3,  6, -1]

/-- Row 125 of the classic marching cubes table. -/
def mcRow125 : List Int := [ 0,  9,  1, 11,  6,  7, -1, -1, -1, -1, -1, -1, -1, -1, -1, -1]

/-- Row 126 of the classic marching cubes table. -/
def mcRow126 : List Int := [ 7,  8,  0,  7,  0,  6,  3, 11,  0, 11,  6,  0, -1, -1, -1, -1]

/-- Row 127 of the classic marching cubes table. -/
def mcRow127 : List Int := [ 7, 11,  6, -1, -1, -1, -1, -1, -1, -1, -1, -1, -1, -1, -1, -1]

/-- Row 128 of the classic marching cubes table. -/
def mcRow128 : List Int := [ 7,  6, 11, -1, -1, -1, -1, -1, -1, -1, -1, -1, -1, -1, -1, -1]

/-- Row 129 of the classic marching cubes table. -/
def mcRow129 : List Int := [ 3,  0,  8, 11,  7,  6, -1, -1, -1, -1, -1, -1, -1, -1, -1, -1]

/-- Row 130 of the classic marching cubes table. -/
def mcRow130 : List Int := [ 0,  1,  9, 11,  7,  6, -1, -1, -1, -1, -1, -1, -1, -1, -1, -1]

/-- Row 131 of the classic marching cubes table. -/
def mcRow131 : List Int := [ 8,  1,  9,  8,  3,  1, 11,  7,  6, -1, -1, -1, -1, -1, -1, -1]

/-- Row 132 of the classic marching cubes table. -/
def mcRow132 : List Int := [10,  1,  2,  6, 11,  7, -1, -1, -1, -1, -1, -1, -1, -1, -1, -1]

/-- Row 133 of the classic marching cubes table. -/
def mcRow133 : List Int := [ 1,  2, 10,  3,  0,  8,  6, 11,  7, -1, -1, -1, -1, -1, -1, -1]

/-- Row 134 of the classic marching cubes table. -/
def mcRow134 : List Int := [ 2,  9,  0,  2, 10,  9,  6, 11,  7, -1, -1, -1, -1, -1, -1, -1]

/-- Row 135 of the classic marching cubes table. -/
def mcRow135 : List Int := [ 6, 11,  7,  2, 10,  3, 10,  8,  3, 10,  9,  8, -1, -1, -1, -1]

/-- Row 136 of the classic marching cubes table. -/
def mcRow136 : List Int := [ 7,  2,  3,  6,  2,  7, -1, -1, -1, -1, -1, -1, -1, -1, -1, -1]

/-- Row 137 of the classic marching cubes table. -/
def mcRow137 : List Int := [ 7,  0,  8,  7,  6,  0,  6,  2,  0, -1, -1, -1, -1, -1, -1, -1]

/-- Row 138 of the classic marching cubes table. -/
def mcRow138 : List Int := [ 2,  7,  6,  2,  3,  7,  0,  1,  9, -1, -1, -1, -1, -1, -1, -1]

/-- Row 139 of the classic marching cubes table. -/
def mcRow139 : List Int := [ 1,  6,  2,  1,  8,  6,  1,  9,  8,  8,  7,  6, -1, -1, -1, -1]

/-- Row 140 of the classic marching cubes table. -/
def mcRow140 : List Int := [10,  7,  6, 10,  1,  7,  1,  3,  7, -1, -1, -1, -1, -1, -1, -1]

/-- Row 141 of the classic marching cubes table. -/
def mcRow141 : List Int := [10,  7,  6,  1,  7, 10,  1,  8,  7,  1,  0,  8, -1, -1, -1, -1]

/-- Row 142 of the classic marching cubes table. -/
def mcRow142 : List Int := [ 0,  3,  7,  0,  7, 10,  0, 10,  9,  6, 10,  7, -1, -1, -1, -1]

/-- Row 143 of the classic marching cubes table. -/
def mcRow143 : List Int := [ 7,  6, 10,  7, 10,  8,  8, 10,  9, -1, -1, -1, -1, -1, -1, -1]

/-- Row 144 of the classic marching cubes table. -/
def mcRow144 : List Int := [ 6,  8,  4, 11,  8,  6, -1, -1, -1, -1, -1, -1, -1, -1, -1, -1]

/-- Row 145 of the classic marching cubes table. -/
def mcRow145 : List Int := [ 3,  6, 11,  3,  0,  6,  0,  4,  6, -1, -1, -1, -1, -1, -1, -1]

/-- Row 146 of the classic marching cubes table. -/
def mcRow146 : List Int := [ 8,  6, 11,  8,  4,  6,  9,  0,  1, -1, -1, -1, -1, -1, -1, -1]

/-- Row 147 of the classic marching cubes table. -/
def mcRow147 : List Int := [ 9,  4,  6,  9,  6,  3,  9,  3,  1, 11,  3,  6, -1, -1, -1, -1]

/-- Row 148 of the classic marching cubes table. -/
def mcRow148 : List Int := [ 6,  8,  4,  6, 11,  8,  2, 10,  1, -1, -1, -1, -1, -1, -1, -1]

/-- Row 149 of the classic marching cubes table. -/
def mcRow149 : List Int := [ 1,  2, 10,  3,  0, 11,  0,  6, 11,  0,  4,  6, -1, -1, -1, -1]

/-- Row 150 of the classic marching cubes table. -/
def mcRow150 : List Int := [ 4, 11,  8,  4,  6, 11,  0,  2,  9,  2, 10,  9, -1, -1, -1, -1]

/-- Row 151 of the classic marching cubes table. -/
def mcRow151 : List Int := [10,  9,  3, 10,  3,  2,  9,  4,  3, 11,  3,  6,  4,  6,  3, -1]

/-- Row 152 of the classic marching cubes table. -/
def mcRow152 : List Int := [ 8,  2,  3,  8,  4,  2,  4,  6,  2, -1, -1, -1, -1, -1, -1, -1]

/-- Row 153 of the classic marching cubes table. -/
def mcRow153 : List Int := [ 0,  4,  2,  4,  6,  2, -1, -1, -1, -1, -1, -1, -1, -1, -1, -1]

/-- Row 154 of the classic marching cubes table. -/
def mcRow154 : List Int := [ 1,  9,  0,  2,  3,  4,  2,  4,  6,  4,  3,  8, -1, -1, -1, -1]

/-- Row 155 of the classic marching cubes table. -/
def mcRow155 : List Int := [ 1,  9,  4,  1,  4,  2,  2,  4,  6, -1, -1, -1, -1, -1, -1, -1]

/-- Row 156 of the classic marching cubes table. -/
def mcRow156 : List Int := [ 8,  1,  3,  8,  6,  1,  8,  4,  6,  6, 10,  1, -1, -1, -1, -1]

/-- Row 157 of the classic marching cubes table. -/
def mcRow157 : List Int := [10,  1,  0, 10,  0,  6,  6,  0,  4, -1, -1, -1, -1, -1, -1, -1]

/-- Row 158 of the classic marching cubes table. -/
def mcRow158 : List Int := [ 4,  6,  3,  4,  3,  8,  6, 10,  3,  0,  3,  9, 10,  9,  3, -1]

/-- Row 159 of the classic marching cubes table. -/
def mcRow159 : List Int := [10,  9,  4,  6, 10,  4, -1, -1, -1, -1, -1, -1, -1, -1, -1, -1]

/-- Row 160 of the classic marching cubes table. -/
def mcRow160 : List Int := [ 4,  9,  5,  7,  6, 11, -1, -1, -1, -1, -1, -1, -1, -1, -1, -1]

/-- Row 161 of the classic marching cubes table. -/
def mcRow161 : List Int := [ 0,  8,  3,  4,  9,  5, 11,  7,  6, -1, -1, -1, -1, -1, -1, -1]

/-- Row 162 of the classic marching cubes table. -/
def mcRow162 : List Int := [ 5,  0,  1,  5,  4,  0,  7,  6, 11, -1, -1, -1, -1, -1, -1, -1]

/-- Row 163 of the classic marching cubes table. -/
def mcRow163 : List Int := [11,  7,  6,  8,  3,  4,  3,  5,  4,  3,  1,  5, -1, -1, -1, -1]

/-- Row 164 of the classic marching cubes table. -/
def mcRow164 : List Int := [ 9,  5,  4, 10,  1,  2,  7,  6, 11, -1, -1, -1, -1, -1, -1, -1]

/-- Row 165 of the classic marching cubes table. -/
def mcRow165 : List Int := [ 6, 11,  7,  1,  2, 10,  0,  8,  3,  4,  9,  5, -1, -1, -1, -1]

/-- Row 166 of the classic marching cubes table. -/
def mcRow166 : List Int := [ 7,  6, 11,  5,  4, 10,  4,  2, 10,  4,  0,  2, -1, -1, -1, -1]

/-- Row 167 of the classic marching cubes table. -/
def mcRow167 : List Int := [ 3,  4,  8,  3,  5,  4,  3,  2,  5, 10,  5,  2, 11,  7,  6, -1]

/-- Row 168 of the classic marching cubes table. -/
def mcRow168 : List Int := [ 7,  2,  3,  7,  6,  2,  5,  4,  9, -1, -1, -1, -1, -1, -1, -1]

/-- Row 169 of the classic marching cubes table. -/
def mcRow169 : List Int := [ 9,  5,  4,  0,  8,  6,  0,  6,  2,  6,  8,  7, -1, -1, -1, -1]

/-- Row 170 of the classic marching cubes table. -/
def mcRow170 : List Int := [ 3,  6,  2,  3,  7,  6,  1,  5,  0,  5,  4,  0, -1, -1, -1, -1]

/-- Row 171 of the classic marching cubes table. -/
def mcRow171 : List Int := [ 6,  2,  8,  6,  8,  7,  2,  1,  8,  4,  8,  5,  1,  5,  8, -1]

/-- Row 172 of the classic marching cubes table. -/
def mcRow172 : List Int := [ 9,  5,  4, 10,  1,  6,  1,  7,  6,  1,  3,  7, -1, -1, -1, -1]

/-- Row 173 of the classic marching cubes table. -/
def mcRow173 : List Int := [ 1,  6, 10,  1,  7,  6,  1,  0,  7,  8,  7,  0,  9,  5,  4, -1]

/-- Row 174 of the classic marching cubes table. -/
def mcRow174 : List Int := [ 4,  0, 10,  4, 10,  5,  0,  3, 10,  6, 10,  7,  3,  7, 10, -1]

/-- Row 175 of the classic marching cubes table. -/
def mcRow175 : List Int := [ 7,  6, 10,  7, 10,  8,  5,  4, 10,  4,  8, 10, -1, -1, -1, -1]

/-- Row 176 of the classic marching cubes table. -/
def mcRow176 : List Int := [ 6,  9,  5,  6, 11,  9, 11,  8,  9, -1, -1, -1, -1, -1, -1, -1]

/-- Row 177 of the classic marching cubes table. -/
def mcRow177 : List Int := [ 3,  6, 11,  0,  6,  3,  0,  5,  6,  0,  9,  5, -1, -1, -1, -1]

/-- Row 178 of the classic marching cubes table. -/
def mcRow178 : List Int := [ 0, 11,  8,  0,  5, 11,  0,  1,  5,  5,  6, 11, -1, -1, -1, -1]

/-- Row 179 of the classic marching cubes table. -/
def mcRow179 : List Int := [ 6, 11,  3,  6,  3,  5,  5,  3,  1, -1, -1, -1, -1, -1, -1, -1]

/-- Row 180 of the classic marching cubes table. -/
def mcRow180 : List Int := [ 1,  2, 10,  9,  5, 11,  9, 11,  8, 11,  5,  6, -1, -1, -1, -1]

/-- Row 181 of the classic marching cubes table. -/
def mcRow181 : List Int := [ 0, 11,  3,  0,  6, 11,  0,  9,  6,  5,  6,  9,  1,  2, 10, -1]

/-- Row 182 of the classic marching cubes table. -/
def mcRow182 : List Int := [11,  8,  5, 11,  5,  6,  8,  0,  5, 10,  5,  2,  0,  2,  5, -1]

/-- Row 183 of the classic marching cubes table. -/
def mcRow183 : List Int := [ 6, 11,  3,  6,  3,  5,  2, 10,  3, 10,  5,  3, -1, -1, -1, -1]

/-- Row 184 of the classic marching cubes table. -/
def mcRow184 : List Int := [ 5,  8,  9,  5,  2,  8,  5,  6,  2,  3,  8,  2, -1, -1, -1, -1]

/-- Row 185 of the classic marching cubes table. -/
def mcRow185 : List Int := [ 9,  5,  6,  9,  6,  0,  0,  6,  2, -1, -1, -1, -1, -1, -1, -1]

/-- Row 186 of the classic marching cubes table. -/
def mcRow186 : List Int := [ 1,  5,  8,  1,  8,  0,  5,  6,  8,  3,  8,  2,  6,  2,  8, -1]

/-- Row 187 of the classic marching cubes table. -/
def mcRow187 : List Int := [ 1,  5,  6,  2,  1,  6, -1, -1, -1, -1, -1, -1, -1, -1, -1, -1]

/-- Row 188 of the classic marching cubes table. -/
def mcRow188 : List Int := [ 1,  3,  6,  1,  6, 10,  3,  8,  6,  5,  6,  9,  8,  9,  6, -1]

/-- Row 189 of the classic marching cubes table. -/
def mcRow189 : List Int := [10,  1,  0, 10,  0,  6,  9,  5,  0,  5,  6,  0, -1, -1, -1, -1]

/-- Row 190 of the classic marching cubes table. -/
def mcRow190 : List Int := [ 0,  3,  8,  5,  6, 10, -1, -1, -1, -1, -1, -1, -1, -1, -1, -1]

/-- Row 191 of the classic marching cubes table. -/
def mcRow191 : List Int := [10,  5,  6, -1, -1, -1, -1, -1, -1, -1, -1, -1, -1, -1, -1, -1]

/-- Row 192 of the classic marching cubes table. -/
def mcRow192 : List Int := [11,  5, 10,  7,  5, 11, -1, -1, -1, -1, -1, -1, -1, -1, -1, -1]

/-- Row 193 of the classic marching cubes table. -/
def mcRow193 : List Int := [11,  5, 10, 11,  7,  5,  8,  3,  0, -1, -1, -1, -1, -1, -1, -1]

/-- Row 194 of the classic marching cubes table. -/
def mcRow194 : List Int := [ 5, 11,  7,  5, 10, 11,  1,  9,  0, -1, -1, -1, -1, -1, -1, -1]

/-- Row 195 of the classic marching cubes table. -/
def mcRow195 : List Int := [10,  7,  5, 10, 11,  7,  9,  8,  1,  8,  3,  1, -1, -1, -1, -1]

/-- Row 196 of the classic marching cubes table. -/
def mcRow196 : List Int := [11,  1,  2, 11,  7,  1,  7,  5,  1, -1, -1, -1, -1, -1, -1, -1]

/-- Row 197 of the classic marching cubes table. -/
def mcRow197 : List Int := [ 0,  8,  3,  1,  2,  7,  1,  7,  5,  7,  2, 11, -1, -1, -1, -1]

/-- Row 198 of the classic marching cubes table. -/
def mcRow198 : List Int := [ 9,  7,  5,  9,  2,  7,  9,  0,  2,  2, 11,  7, -1, -1, -1, -1]

/-- Row 199 of the classic marching cubes table. -/
def mcRow199 : List Int := [ 7,  5,  2,  7,  2, 11,  5,  9,  2,  3,  2,  8,  9,  8,  2, -1]

/-- Row 200 of the classic marching cubes table. -/
def mcRow200 : List Int := [ 2,  5, 10,  2,  3,  5,  3,  7,  5, -1, -1, -1, -1, -1, -1, -1]

/-- Row 201 of the classic marching cubes table. -/
def mcRow201 : List Int := [ 8,  2,  0,  8,  5,  2,  8,  7,  5, 10,  2,  5, -1, -1, -1, -1]

/-- Row 202 of the classic marching cubes table. -/
def mcRow202 : List Int := [ 9,  0,  1,  5, 10,  3,  5,  3,  7,  3, 10,  2, -1, -1, -1, -1]

/-- Row 203 of the classic marching cubes table. -/
def mcRow203 : List Int := [ 9,  8,  2,  9,  2,  1,  8,  7,  2, 10,  2,  5,  7,  5,  2, -1]

/-- Row 204 of the classic marching cubes table. -/
def mcRow204 : List Int := [ 1,  3,  5,  3,  7,  5, -1, -1, -1, -1, -1, -1, -1, -1, -1, -1]

/-- Row 205 of the classic marching cubes table. -/
def mcRow205 : List Int := [ 0,  8,  7,  0,  7,  1,  1,  7,  5, -1, -1, -1, -1, -1, -1, -1]

/-- Row 206 of the classic marching cubes table. -/
def mcRow206 : List Int := [ 9,  0,  3,  9,  3,  5,  5,  3,  7, -1, -1, -1, -1, -1, -1, -1]

/-- Row 207 of the classic marching cubes table. -/
def mcRow207 : List Int := [ 9,  8,  7,  5,  9,  7, -1, -1, -1, -1, -1, -1, -1, -1, -1, -1]

/-- Row 208 of the classic marching cubes table. -/
def mcRow208 : List Int := [ 5,  8,  4,  5, 10,  8, 10, 11,  8, -1, -1, -1, -1, -1, -1, -1]

/-- Row 209 of the classic marching cubes table. -/
def mcRow209 : List Int := [ 5,  0,  4,  5, 11,  0,  5, 10, 11, 11,  3,  0, -1, -1, -1, -1]

/-- Row 210 of the classic marching cubes table. -/
def mcRow210 : List Int := [ 0,  1,  9,  8,  4, 10,  8, 10, 11, 10,  4,  5, -1, -1, -1, -1]

/-- Row 211 of the classic marching cubes table. -/
def mcRow211 : List Int := [10, 11,  4, 10,  4,  5, 11,  3,  4,  9,  4,  1,  3,  1,  4, -1]

/-- Row 212 of the classic marching cubes table. -/
def mcRow212 : List Int := [ 2,  5,  1,  2,  8,  5,  2, 11,  8,  4,  5,  8, -1, -1, -1, -1]

/-- Row 213 of the classic marching cubes table. -/
def mcRow213 : List Int := [ 0,  4, 11,  0, 11,  3,  4,  5, 11,  2, 11,  1,  5,  1, 11, -1]

/-- Row 214 of the classic marching cubes table. -/
def mcRow214 : List Int := [ 0,  2,  5,  0,  5,  9,  2, 11,  5,  4,  5,  8, 11,  8,  5, -1]

/-- Row 215 of the classic marching cubes table. -/
def mcRow215 : List Int := [ 9,  4,  5,  2, 11,  3, -1, -1, -1, -1, -1, -1, -1, -1, -1, -1]

/-- Row 216 of the classic marching cubes table. -/
def mcRow216 : List Int := [ 2,  5, 10,  3,  5,  2,  3,  4,  5,  3,  8,  4, -1, -1, -1, -1]

/-- Row 217 of the classic marching cubes table. -/
def mcRow217 : List Int := [ 5, 10,  2,  5,  2,  4,  4,  2,  0, -1, -1, -1, -1, -1, -1, -1]

/-- Row 218 of the classic marching cubes table. -/
def mcRow218 : List Int := [ 3, 10,  2,  3,  5, 10,  3,  8,  5,  4,  5,  8,  0,  1,  9, -1]

/-- Row 219 of the classic marching cubes table. -/
def mcRow219 : List Int := [ 5, 10,  2,  5,  2,  4,  1,  9,  2,  9,  4,  2, -1, -1, -1, -1]

/-- Row 220 of the classic marching cubes table. -/
def mcRow220 : List Int := [ 8,  4,  5,  8,  5,  3,  3,  5,  1, -1, -1, -1, -1, -1, -1, -1]

/-- Row 221 of the classic marching cubes table. -/
def mcRow221 : List Int := [ 0,  4,  5,  1,  0,  5, -1, -1, -1, -1, -1, -1, -1, -1, -1, -1]

/-- Row 222 of the classic marching cubes table. -/
def mcRow222 : List Int := [ 8,  4,  5,  8,  5,  3,  9,  0,  5,  0,  3,  5, -1, -1, -1, -1]

/-- Row 223 of the classic marching cubes table. -/
def mcRow223 : List Int := [ 9,  4,  5, -1, -1, -1, -1, -1, -1, -1, -1, -1, -1, -1, -1, -1]

/-- Row 224 of the classic marching cubes table. -/
def mcRow224 : List Int := [ 4, 11,  7,  4,  9, 11,  9, 10, 11, -1, -1, -1, -1, -1, -1, -1]

/-- Row 225 of the classic marching cubes table. -/
def mcRow225 : List Int := [ 0,  8,  3,  4,  9,  7,  9, 11,  7,  9, 10, 11, -1, -1, -1, -1]

/-- Row 226 of the classic marching cubes table. -/
def mcRow226 : List Int := [ 1, 10, 11,  1, 11,  4,  1,  4,  0,  7,  4, 11, -1, -1, -1, -1]

/-- Row 227 of the classic marching cubes table. -/
def mcRow227 : List Int := [ 3,  1,  4,  3,  4,  8,  1, 10,  4,  7,  4, 11, 10, 11,  4, -1]

/-- Row 228 of the classic marching cubes table. -/
def mcRow228 : List Int := [ 4, 11,  7,  9, 11,  4,  9,  2, 11,  9,  1,  2, -1, -1, -1, -1]

/-- Row 229 of the classic marching cubes table. -/
def mcRow229 : List Int := [ 9,  7,  4,  9, 11,  7,  9,  1, 11,  2, 11,  1,  0,  8,  3, -1]

/-- Row 230 of the classic marching cubes table. -/
def mcRow230 : List Int := [11,  7,  4, 11,  4,  2,  2,  4,  0, -1, -1, -1, -1, -1, -1, -1]

/-- Row 231 of the classic marching cubes table. -/
def mcRow231 : List Int := [11,  7,  4, 11,  4,  2,  8,  3,  4,  3,  2,  4, -1, -1, -1, -1]

/-- Row 232 of the classic marching cubes table. -/
def mcRow232 : List Int := [ 2,  9, 10,  2,  7,  9,  2,  3,  7,  7,  4,  9, -1, -1, -1, -1]

/-- Row 233 of the classic marching cubes table. -/
def mcRow233 : List Int := [ 9, 10,  7,  9,  7,  4, 10,  2,  7,  8,  7,  0,  2,  0,  7, -1]

/-- Row 234 of the classic marching cubes table. -/
def mcRow234 : List Int := [ 3,  7, 10,  3, 10,  2,  7,  4, 10,  1, 10,  0,  4,  0, 10, -1]

/-- Row 235 of the classic marching cubes table. -/
def mcRow235 : List Int := [ 1, 10,  2,  8,  7,  4, -1, -1, -1, -1, -1, -1, -1, -1, -1, -1]

/-- Row 236 of the classic marching cubes table. -/
def mcRow236 : List Int := [ 4,  9,  1,  4,  1,  7,  7,  1,  3, -1, -1, -1, -1, -1, -1, -1]

/-- Row 237 of the classic marching cubes table. -/
def mcRow237 : List Int := [ 4,  9,  1,  4,  1,  7,  0,  8,  1,  8,  7,  1, -1, -1, -1, -1]

/-- Row 238 of the classic marching cubes table. -/
def mcRow238 : List Int := [ 4,  0,  3,  7,  4,  3, -1, -1, -1, -1, -1, -1, -1, -1, -1, -1]

/-- Row 239 of the classic marching cubes table. -/
def mcRow239 : List Int := [ 4,  8,  7, -1, -1, -1, -1, -1, -1, -1, -1, -1, -1, -1, -1, -1]

/-- Row 240 of the classic marching cubes table. -/
def mcRow240 : List Int := [ 9, 10,  8, 10, 11,  8, -1, -1, -1, -1, -1, -1, -1, -1, -1, -1]

/-- Row 241 of the classic marching cubes table. -/
def mcRow241 : List Int := [ 3,  0,  9,  3,  9, 11, 11,  9, 10, -1, -1, -1, -1, -1, -1, -1]

/-- Row 242 of the classic marching cubes table. -/
def mcRow242 : List Int := [ 0,  1, 10,  0, 10,  8,  8, 10, 11, -1, -1, -1, -1, -1, -1, -1]

/-- Row 243 of the classic marching cubes table. -/
def mcRow243 : List Int := [ 3,  1, 10, 11,  3, 10, -1, -1, -1, -1, -1, -1, -1, -1, -1, -1]

/-- Row 244 of the classic marching cubes table. -/
def mcRow244 : List Int := [ 1,  2, 11,  1, 11,  9,  9, 11,  8, -1, -1, -1, -1, -1, -1, -1]

/-- Row 245 of the classic marching cubes table. -/
def mcRow245 : List Int := [ 3,  0,  9,  3,  9, 11,  1,  2,  9,  2, 11,  9, -1, -1, -1, -1]

/-- Row 246 of the classic marching cubes table. -/
def mcRow246 : List Int := [ 0,  2, 11,  8,  0, 11, -1, -1, -1, -1, -1, -1, -1, -1, -1, -1]

/-- Row 247 of the classic marching cubes table. -/
def mcRow247 : List Int := [ 3,  2, 11, -1, -1, -1, -1, -1, -1, -1, -1, -1, -1, -1, -1, -1]

/-- Row 248 of the classic marching cubes table. -/
def mcRow248 : List Int := [ 2,  3,  8,  2,  8, 10, 10,  8,  9, -1, -1, -1, -1, -1, -1, -1]

/-- Row 249 of the classic marching cubes table. -/
def mcRow249 : List Int := [ 9, 10,  2,  0,  9,  2, -1, -1, -1, -1, -1, -1, -1, -1, -1, -1]

/-- Row 250 of the classic marching cubes table. -/
def mcRow250 : List Int := [ 2,  3,  8,  2,  8, 10,  0,  1,  8,  1, 10,  8, -1, -1, -1, -1]

/-- Row 251 of the classic marching cubes table. -/
def mcRow251 : List Int := [ 1, 10,  2, -1, -1, -1, -1, -1, -1, -1, -1, -1, -1, -1, -1, -1]

/-- Row 252 of the classic marching cubes table. -/
def mcRow252 : List Int := [ 1,  3,  8,  9,  1,  8, -1, -1, -1, -1, -1, -1, -1, -1, -1, -1]

/-- Row 253 of the classic marching cubes table. -/
def mcRow253 : List Int := [ 0,  9,  1, -1, -1, -1, -1, -1, -1, -1, -1, -1, -1, -1, -1, -1]

/-- Row 254 of the classic marching cubes table. -/
def mcRow254 : List Int := [ 0,  3,  8, -1, -1, -1, -1, -1, -1, -1, -1, -1, -1, -1, -1, -1]

/-- Row 255 of the classic marching cubes table. -/
def mcRow255 : List Int := [-1, -1, -1, -1, -1, -1, -1, -1, -1, -1, -1, -1, -1, -1, -1, -1]

/-- The classic marching cubes table, 256 cases of 16 edge indices each, transcribed from MARCHING_CUBES_TABLE in marching_cubes_lut.rs. -/
def MARCHING_CUBES_TABLE : List (List Int) := [mcRow0, mcRow1, mcRow2, mcRow3, mcRow4, mcRow5, mcRow6, mcRow7, mcRow8, mcRow9, mcRow10, mcRow11, mcRow12, mcRow13, mcRow14, mcRow15, mcRow16, mcRow17, mcRow18, mcRow19, mcRow20, mcRow21, mcRow22, mcRow23, mcRow24, mcRow25, mcRow26, mcRow27, mcRow28, mcRow29, mcRow30, mcRow31, mcRow32, mcRow33, mcRow34, mcRow35, mcRow36, mcRow37, mcRow38, mcRow39, mcRow40, mcRow41, mcRow42, mcRow43, mcRow44, mcRow45, mcRow46, mcRow47, mcRow48, mcRow49, mcRow50, mcRow51, mcRow52, mcRow53, mcRow54, mcRow55, mcRow56, mcRow57, mcRow58, mcRow59, mcRow60, mcRow61, mcRow62, mcRow63, mcRow64, mcRow65, mcRow66, mcRow67, mcRow68, mcRow69, mcRow70, mcRow71, mcRow72, mcRow73, mcRow74, mcRow75, mcRow76, mcRow77, mcRow78, mcRow79, mcRow80, mcRow81, mcRow82, mcRow83, mcRow84, mcRow85, mcRow86, mcRow87, mcRow88, mcRow89, mcRow90, mcRow91, mcRow92, mcRow93, mcRow94, mcRow95, mcRow96, mcRow97, mcRow98, mcRow99, mcRow100, mcRow101, mcRow102, mcRow103, mcRow104, mcRow105, mcRow106, mcRow107, mcRow108, mcRow109, mcRow110, mcRow111, mcRow112, mcRow113, mcRow114, mcRow115, mcRow116, mcRow117, mcRow118, mcRow119, mcRow120, mcRow121, mcRow122, mcRow123, mcRow124, mcRow125, mcRow126, mcRow127, mcRow128, mcRow129, mcRow130, mcRow131, mcRow132, mcRow133, mcRow134, mcRow135, mcRow136, mcRow137, mcRow138, mcRow139, mcRow140, mcRow141, mcRow142, mcRow143, mcRow144, mcRow145, mcRow146, mcRow147, mcRow148, mcRow149, mcRow150, mcRow151, mcRow152, mcRow153, mcRow154, mcRow155, mcRow156, mcRow157, mcRow158, mcRow159, mcRow160, mcRow161, mcRow162, mcRow163, mcRow164, mcRow165, mcRow166, mcRow167, mcRow168, mcRow169, mcRow170, mcRow171, mcRow172, mcRow173, mcRow174, mcRow175, mcRow176, mcRow177, mcRow178, mcRow179, mcRow180, mcRow181, mcRow182, mcRow183, mcRow184, mcRow185, mcRow186, mcRow187, mcRow188, mcRow189, mcRow190, mcRow191, mcRow192, mcRow193, mcRow194, mcRow195, mcRow196, mcRow197, mcRow198, mcRow199, mcRow200, mcRow201, mcRow202, mcRow203, mcRow204, mcRow205, mcRow206, mcRow207, mcRow208, mcRow209, mcRow210, mcRow211, mcRow212, mcRow213, mcRow214, mcRow215, mcRow216, mcRow217, mcRow218, mcRow219, mcRow220, mcRow221, mcRow222, mcRow223, mcRow224, mcRow225, mcRow226, mcRow227, mcRow228, mcRow229, mcRow230, mcRow231, mcRow232, mcRow233, mcRow234, mcRow235, mcRow236, mcRow237, mcRow238, mcRow239, mcRow240, mcRow241, mcRow242, mcRow243, mcRow244, mcRow245, mcRow246, mcRow247, mcRow248, mcRow249, mcRow250, mcRow251, mcRow252, mcRow253, mcRow254, mcRow255]


/-- Converts an array of bools representing bits to the corresponding index,
the order of the bits is least to most significant
(flags_to_index in marching_cubes_lut.rs). -/
def flags_to_index (flags : List Bool) : Nat :=
  flags.reverse.foldl (fun index bit => (index <<< 1) ||| bit.toNat) 0

/-- Returns the marching cubes LUT row for the given vertex configuration
(get_marching_cubes_triangulation_raw in marching_cubes_lut.rs); the Rust
index expression cannot go out of bounds, the default row is never used. -/
def get_marching_cubes_triangulation_raw (vertices_inside : List Bool) : List Int :=
  MARCHING_CUBES_TABLE.getD (flags_to_index vertices_inside) []

/-- Extracts the triangle with the given index from a triangulation, reversing
the vertex order to fix the winding order
(triangulation_to_triangle in marching_cubes_lut.rs); array accesses are
modelled with getD, the default is never used on a 16 entry row. -/
def triangulation_to_triangle (triangulation : List Int) (triangle_index : Nat) :
    Option (List Int) :=
  let i := triangle_index
  if triangulation.getD (3 * i) (-1) = -1 then
    none
  else
    some [triangulation.getD (3 * i + 2) (-1),
          triangulation.getD (3 * i + 1) (-1),
          triangulation.getD (3 * i + 0) (-1)]

/-- Returns the marching cubes triangulation for the given vertex configuration
as the list of triangles yielded by the Rust iterator, which maps
triangulation_to_triangle over 0..5 and flattens away the None entries
(marching_cubes_triangulation_iter in marching_cubes_lut.rs). -/
def marching_cubes_triangulation_iter (vertices_inside : List Bool) : List (List Int) :=
  let triangulation := get_marching_cubes_triangulation_raw vertices_inside
  (List.range 5).filterMap (fun i => triangulation_to_triangle triangulation i)

/-- The five successive index triplets of a 16 entry LUT row. -/
def rawTriplets (row : List Int) : List (List Int) :=
  (List.range 5).map (fun i =>
    [row.getD (3 * i) (-1), row.getD (3 * i + 1) (-1), row.getD (3 * i + 2) (-1)])

/-- The triplets of a LUT row that are not padding, i.e. contain no -1 entry,
in table order. -/
def nonPaddingTriplets (row : List Int) : List (List Int) :=
  (rawTriplets row).filter (fun t => t.all (fun e => e ≠ -1))

/-- The corner boolean array of an 8 bit mask, bit k of m giving corner k,
least significant bit first. -/
def indexToFlags (m : Nat) : List Bool :=
  (List.range 8).map (fun k => m.testBit k)

set_option maxRecDepth 40000 in
/-- C1: For every corner configuration of 8 booleans, the triangulation iterator
yields exactly as many triangles as there are non-(-1) index triplets in the raw
MARCHING_CUBES_TABLE entry for that configuration, and each yielded triangle is
the corresponding raw triplet with its three entries in reversed order, in table
order. -/
theorem lut_completeness_winding_reversed :
    ∀ b0 b1 b2 b3 b4 b5 b6 b7 : Bool,
      (marching_cubes_triangulation_iter [b0, b1, b2, b3, b4, b5, b6, b7]).length =
        (nonPaddingTriplets
          (get_marching_cubes_triangulation_raw [b0, b1, b2, b3, b4, b5, b6, b7])).length ∧
      marching_cubes_triangulation_iter [b0, b1, b2, b3, b4, b5, b6, b7] =
        (nonPaddingTriplets
          (get_marching_cubes_triangulation_raw [b0, b1, b2, b3, b4, b5, b6, b7])).map
          List.reverse := by decide

/-- C2 counterexample: the corner configuration [T,F,T,F,F,F,F,F] is case 5 of
the table, whose raw row is [0,8,3, 1,2,10, ...]; the iterator therefore does
not yield [[10,2,1],[7,4,8]] (those are the triangles of case 20, i.e. corners
[F,F,T,F,T,F,F,F]). -/
theorem lut_case5_not_case20_triangles :
    ¬ marching_cubes_triangulation_iter
        [true, false, true, false, false, false, false, false] =
      [[10, 2, 1], [7, 4, 8]] := by decide

/-- C2 amended: calling marching_cubes_triangulation_iter with the corner
configuration [true, false, true, false, false, false, false, false] yields
exactly the two triangles [3,8,0] and [10,2,1], in that order (the reversed
triplets of raw table row 5). -/
theorem lut_case5_triangles :
    marching_cubes_triangulation_iter
        [true, false, true, false, false, false, false, false] =
      [[3, 8, 0], [10, 2, 1]] := by decide

set_option maxRecDepth 40000 in
/-- C3: for every 8 bit mask m, converting m to its array of 8 corner booleans
(bit k of m giving corner k, least significant first) and applying
flags_to_index yields m again. -/
theorem flags_to_index_roundtrip :
    ∀ m : Fin 256, flags_to_index (indexToFlags m.val) = m.val := by decide

set_option maxRecDepth 40000 in
/-- C9: for every input array of 8 booleans the triangulation functions are
total: flags_to_index is strictly below the 256 table rows, the selected row
has the full 16 entries so every access at offset 3*i+2 for i < 5 is in
bounds, the iterator yields at most 5 triangles, and every index of a yielded
triangle is a valid cube edge index in 0..=11. -/
theorem marching_cubes_lut_safety :
    ∀ b0 b1 b2 b3 b4 b5 b6 b7 : Bool,
      flags_to_index [b0, b1, b2, b3, b4, b5, b6, b7] < MARCHING_CUBES_TABLE.length ∧
      MARCHING_CUBES_TABLE.length = 256 ∧
      (get_marching_cubes_triangulation_raw [b0, b1, b2, b3, b4, b5, b6, b7]).length = 16 ∧
      (∀ i < 5, 3 * i + 2 <
        (get_marching_cubes_triangulation_raw [b0, b1, b2, b3, b4, b5, b6, b7]).length) ∧
      (marching_cubes_triangulation_iter [b0, b1, b2, b3, b4, b5, b6, b7]).length ≤ 5 ∧
      ∀ tri ∈ marching_cubes_triangulation_iter [b0, b1, b2, b3, b4, b5, b6, b7],
        tri.length = 3 ∧ ∀ e ∈ tri, 0 ≤ e ∧ e < 12 := by decide


/-- A 3D vector of rationals, modelling nalgebra Vector3 over a Real kind. -/
structure Vec3 where
  x : ℚ
  y : ℚ
  z : ℚ
deriving DecidableEq

/-- Modelled from the spec: AxisAlignedBoundingBox3d of aabb.rs, which is not
among the sources; a pair of componentwise min and max points. -/
structure AABB3 where
  min : Vec3
  max : Vec3
deriving DecidableEq

/-- Modelled from the spec: grow_uniformly of aabb.rs, which is not among the
sources; expands the box symmetrically, every min component decreases and
every max component increases by the margin. -/
def AABB3.grow_uniformly (a : AABB3) (margin : ℚ) : AABB3 :=
  ⟨⟨a.min.x - margin, a.min.y - margin, a.min.z - margin⟩,
   ⟨a.max.x + margin, a.max.y + margin, a.max.z + margin⟩⟩

/-- Modelled from the spec: from_points of aabb.rs, which is not among the
sources; computes the smallest box enclosing all points. Fewer than the
minimum number of particles (an empty input) is a degenerate input, modelled
as none. -/
def AABB3.from_points : List Vec3 → Option AABB3
  | [] => none
  | p :: ps =>
    some (ps.foldl (fun a q =>
      ⟨⟨Min.min a.min.x q.x, Min.min a.min.y q.y, Min.min a.min.z q.z⟩,
       ⟨Max.max a.max.x q.x, Max.max a.max.y q.y, Max.max a.max.z q.z⟩⟩) ⟨p, p⟩)

/-- Modelled from the spec: try_convert of aabb.rs, which is not among the
sources; componentwise checked conversion of the box between Real kinds,
failing if any of the six components fails to convert. -/
def AABB3.try_convert (conv : ℚ → Option ℚ) (a : AABB3) : Option AABB3 :=
  (conv a.min.x).bind fun minx =>
  (conv a.min.y).bind fun miny =>
  (conv a.min.z).bind fun minz =>
  (conv a.max.x).bind fun maxx =>
  (conv a.max.y).bind fun maxy =>
  (conv a.max.z).bind fun maxz =>
  some ⟨⟨minx, miny, minz⟩, ⟨maxx, maxy, maxz⟩⟩

/-- Modelled from the spec: GridConstructionError of uniform_grid.rs, which is
not among the sources; the nominal error kinds of the spec that arise while
setting up the background grid, including the degenerate input case. -/
inductive GridConstructionError where
  | invalidDomain
  | indexOverflow
  | degenerateInput
deriving DecidableEq

/-- Error type returned when the surface reconstruction fails
(ReconstructionError in lib.rs). -/
inductive ReconstructionError where
  | gridConstructionError (e : GridConstructionError)
  | unknown
deriving DecidableEq

/-- View of Except as a sum, used to decide equality of results. -/
def exceptToSum : Except ε α → ε ⊕ α
  | .error e => .inl e
  | .ok a => .inr a

instance {ε α : Type} [DecidableEq ε] [DecidableEq α] : DecidableEq (Except ε α) :=
  fun a b =>
    decidable_of_iff (exceptToSum a = exceptToSum b)
      (by cases a <;> cases b <;> simp [exceptToSum])

/-- The largest value of the modelled 64 bit Index kind. -/
def I64_MAX : Int := 2 ^ 63 - 1

/-- Uniform background grid derived from an AABB and a cube edge length
(uniform_grid.rs is not among the sources; the grid stores the domain it was
built from, the cube size and the per axis cell counts). -/
structure UniformGrid where
  domain : AABB3
  cube_size : ℚ
  cells_per_dim : Int × Int × Int
deriving DecidableEq

/-- Modelled from the spec: UniformGrid::from_aabb of uniform_grid.rs, which is
not among the sources; computes per axis cell counts as the ceiling of extent
over cube size, fails with InvalidDomain if the extent on any axis (or the
cube size) is not positive and with IndexOverflow if cells plus one would
overflow the Index kind. -/
def UniformGrid.from_aabb (aabb : AABB3) (cube_size : ℚ) :
    Except GridConstructionError UniformGrid :=
  let ex := aabb.max.x - aabb.min.x
  let ey := aabb.max.y - aabb.min.y
  let ez := aabb.max.z - aabb.min.z
  if cube_size ≤ 0 ∨ ex ≤ 0 ∨ ey ≤ 0 ∨ ez ≤ 0 then
    .error .invalidDomain
  else
    let nx : Int := ⌈ex / cube_size⌉
    let ny : Int := ⌈ey / cube_size⌉
    let nz : Int := ⌈ez / cube_size⌉
    if nx + 1 > I64_MAX ∨ ny + 1 > I64_MAX ∨ nz + 1 > I64_MAX then
      .error .indexOverflow
    else
      .ok ⟨aabb, cube_size, (nx, ny, nz)⟩

/-- Modelled from the spec: UniformGrid::new_zero of uniform_grid.rs, which is
not among the sources; the all zero grid used by the default reconstruction
handle. -/
def UniformGrid.new_zero : UniformGrid := ⟨⟨⟨0, 0, 0⟩, ⟨0, 0, 0⟩⟩, 0, (0, 0, 0)⟩

/-- Modelled from the spec: DensityMap of density_map.rs, which is not among
the sources; a sparse mapping from flat grid point index to density value,
insertion order irrelevant, modelled as an association list. -/
def DensityMap : Type := List (Int × ℚ)

instance : DecidableEq DensityMap := by
  unfold DensityMap
  infer_instance

/-- Modelled from the spec: TriMesh3d of mesh.rs, which is not among the
sources; a vertex list and a triangle list of vertex index triples. -/
structure TriMesh3d where
  vertices : List Vec3
  triangles : List (Nat × Nat × Nat)
deriving DecidableEq

/-- The empty triangle mesh. -/
def TriMesh3d.empty : TriMesh3d := ⟨[], []⟩

/-- Modelled from the spec: TriMesh3d::clear of mesh.rs, which is not among the
sources; empties both vectors (retained capacity is not part of the model). -/
def TriMesh3d.clear (_m : TriMesh3d) : TriMesh3d := TriMesh3d.empty

/-- Modelled from the spec: appending one mesh to another (mesh.rs is not
among the sources) concatenates the vertices and appends the triangles with
their indices offset by the previous vertex count. -/
def TriMesh3d.append (m1 m2 : TriMesh3d) : TriMesh3d :=
  let n := m1.vertices.length
  ⟨m1.vertices ++ m2.vertices,
   m1.triangles ++ m2.triangles.map (fun t => (t.1 + n, t.2.1 + n, t.2.2 + n))⟩

/-- Modelled from the spec: an octree node of octree.rs, which is not among the
sources; owns particle indices and an AABB. Only its presence in the
reconstruction result matters for the claims, children are not modelled. -/
structure Octree where
  particles : List Nat
  aabb : AABB3
deriving DecidableEq

/-- Modelled from the spec: SubdivisionCriterion of octree.rs, which is not
among the sources; subdivision by maximum particles per leaf or by fixed
depth. -/
inductive SubdivisionCriterion where
  | maxParticleCount (n : Nat)
  | maxDepth (d : Nat)
deriving DecidableEq

/-- Option transformation mirroring the map_option macro of lib.rs combined
with the ? operator inside it: an absent value stays absent, a present value
must convert or the whole surrounding conversion fails. -/
def map_option (f : α → Option β) : Option α → Option (Option β)
  | none => some none
  | some r => (f r).map some

/-- Parameters for the spatial decomposition
(SpatialDecompositionParameters in lib.rs). -/
structure SpatialDecompositionParameters where
  subdivision_criterion : SubdivisionCriterion
  ghost_particle_safety_factor : Option ℚ
  enable_stitching : Bool
deriving DecidableEq

/-- SpatialDecompositionParameters::try_convert in lib.rs: converts the
optional ghost particle safety factor with the checked conversion conv
(the Real to Real conversion of numeric_types.rs, passed as a function),
keeping the subdivision criterion and the stitching flag. -/
def SpatialDecompositionParameters.try_convert (conv : ℚ → Option ℚ)
    (sd : SpatialDecompositionParameters) : Option SpatialDecompositionParameters :=
  (map_option conv sd.ghost_particle_safety_factor).map fun g =>
    ⟨sd.subdivision_criterion, g, sd.enable_stitching⟩

/-- Parameters for the surface reconstruction (Parameters in lib.rs). -/
structure Parameters where
  particle_radius : ℚ
  rest_density : ℚ
  kernel_radius : ℚ
  splash_detection_radius : Option ℚ
  cube_size : ℚ
  iso_surface_threshold : ℚ
  domain_aabb : Option AABB3
  enable_multi_threading : Bool
  spatial_decomposition : Option SpatialDecompositionParameters
deriving DecidableEq

/-- Parameters::try_convert in lib.rs: converts every numeric field with the
checked conversion conv (the Real to Real conversion of numeric_types.rs,
passed as a function), failing if any conversion fails, and keeps the boolean
fields and the subdivision criterion. -/
def Parameters.try_convert (conv : ℚ → Option ℚ) (p : Parameters) : Option Parameters :=
  (conv p.particle_radius).bind fun particle_radius =>
  (conv p.rest_density).bind fun rest_density =>
  (conv p.kernel_radius).bind fun kernel_radius =>
  (map_option conv p.splash_detection_radius).bind fun splash_detection_radius =>
  (conv p.cube_size).bind fun cube_size =>
  (conv p.iso_surface_threshold).bind fun iso_surface_threshold =>
  (map_option (AABB3.try_convert conv) p.domain_aabb).bind fun domain_aabb =>
  (map_option (SpatialDecompositionParameters.try_convert conv)
      p.spatial_decomposition).bind fun spatial_decomposition =>
  some ⟨particle_radius, rest_density, kernel_radius, splash_detection_radius,
        cube_size, iso_surface_threshold, domain_aabb,
        p.enable_multi_threading, spatial_decomposition⟩


/-- Workspace used internally to reuse allocated memory
(LocalReconstructionWorkspace in workspace.rs); vector capacities are not part
of the model. -/
structure LocalReconstructionWorkspace where
  particle_positions : List Vec3
  particle_neighbor_lists : List (List Nat)
  particle_densities : List ℚ
  mesh : TriMesh3d
  density_map : DensityMap
deriving DecidableEq

/-- LocalReconstructionWorkspace::new in workspace.rs: a workspace without
allocated memory. -/
def LocalReconstructionWorkspace.new : LocalReconstructionWorkspace :=
  ⟨[], [], [], TriMesh3d.empty, ([] : List (Int × ℚ))⟩

/-- LocalReconstructionWorkspace::with_capacity in workspace.rs: preallocates
for the given particle count; the buffers are still empty, so in the model it
equals the fresh workspace. -/
def LocalReconstructionWorkspace.with_capacity (_capacity : Nat) :
    LocalReconstructionWorkspace :=
  LocalReconstructionWorkspace.new

/-- Collection of all thread local workspaces
(ReconstructionWorkspace in workspace.rs); the thread local storage is
modelled as a list of local workspaces, empty for a fresh workspace. -/
structure ReconstructionWorkspace where
  global_densities : List ℚ
  local_workspaces : List LocalReconstructionWorkspace
deriving DecidableEq

/-- The derived Default impl for ReconstructionWorkspace in workspace.rs: empty
global densities and no thread local workspaces. -/
def ReconstructionWorkspace.default : ReconstructionWorkspace := ⟨[], []⟩

/-- The Clone impl for ReconstructionWorkspace in workspace.rs: returns a new
default workspace without any allocated memory, never a deep copy. -/
def ReconstructionWorkspace.clone (_w : ReconstructionWorkspace) :
    ReconstructionWorkspace :=
  ReconstructionWorkspace.default

/-- ReconstructionWorkspace::get_local_with_capacity in workspace.rs: returns
the calling thread's local workspace, initializing it with the given capacity
if not already initialized; modelled as returning the updated collection
together with the local workspace. -/
def ReconstructionWorkspace.get_local_with_capacity (w : ReconstructionWorkspace)
    (capacity : Nat) : ReconstructionWorkspace × LocalReconstructionWorkspace :=
  match w.local_workspaces with
  | [] =>
    let l := LocalReconstructionWorkspace.with_capacity capacity
    (⟨w.global_densities, [l]⟩, l)
  | l :: _ => (w, l)

/-- Result data of a surface reconstruction (SurfaceReconstruction in lib.rs). -/
structure SurfaceReconstruction where
  grid : UniformGrid
  octree : Option Octree
  density_map : Option DensityMap
  mesh : TriMesh3d
  workspace : ReconstructionWorkspace
deriving DecidableEq

/-- The Default impl for SurfaceReconstruction in lib.rs: a zero grid, no
octree, no density map, an empty mesh and a default workspace. -/
def SurfaceReconstruction.default : SurfaceReconstruction :=
  ⟨UniformGrid.new_zero, none, none, TriMesh3d.empty, ReconstructionWorkspace.default⟩

/-- The derived Clone of SurfaceReconstruction in lib.rs clones every field;
grid, octree, density map and mesh are plain data (their deep copies are
modelled as identity) while the workspace uses its custom Clone impl. -/
def SurfaceReconstruction.clone (s : SurfaceReconstruction) : SurfaceReconstruction :=
  ⟨s.grid, s.octree, s.density_map, s.mesh, s.workspace.clone⟩

/-- Modelled from the spec: the pipeline stages whose sources are not
available, abstracted as functions. kernel_evaluation_radius stands for
density_map::compute_kernel_evaluation_radius of density_map.rs applied to the
kernel radius and the cube size; single_surface stands for the mesh produced
by reconstruction::reconstruct_single_surface_append of reconstruction.rs; and
octree_result stands for the mesh, octree and optional density map left in the
output handle by the octree visitor run of reconstruction.rs. Per the spec
both reconstruction results are determined by the particles, the parameters
and the grid alone, since previous output is cleared before refilling. -/
structure PipelineModel where
  kernel_evaluation_radius : ℚ → ℚ → ℚ
  single_surface : List Vec3 → UniformGrid → Parameters → TriMesh3d
  octree_result :
    List Vec3 → Parameters → UniformGrid → TriMesh3d × Octree × Option DensityMap

/-- The domain AABB that grid_for_reconstruction in lib.rs hands to
UniformGrid::from_aabb: a supplied domain AABB is used as is; otherwise the
minimal enclosing AABB of the particles is computed (degenerate, i.e. none,
for an empty input), grown uniformly by the particle radius and then grown
uniformly once more by the kernel evaluation radius. -/
def reconstruction_domain_aabb (kernel_evaluation_radius : ℚ → ℚ → ℚ)
    (particle_positions : List Vec3) (particle_radius kernel_radius cube_size : ℚ)
    (domain_aabb : Option AABB3) : Option AABB3 :=
  match domain_aabb with
  | some aabb => some aabb
  | none =>
    (AABB3.from_points particle_positions).map fun aabb =>
      (aabb.grow_uniformly particle_radius).grow_uniformly
        (kernel_evaluation_radius kernel_radius cube_size)

/-- Constructs the background grid for marching cubes
(grid_for_reconstruction in lib.rs): builds the domain AABB and the grid from
it. An empty particle set without a supplied domain AABB is a degenerate
input. The multi threading flag only selects the parallel AABB computation in
the source, which computes the same box. -/
def grid_for_reconstruction (kernel_evaluation_radius : ℚ → ℚ → ℚ)
    (particle_positions : List Vec3) (particle_radius kernel_radius cube_size : ℚ)
    (domain_aabb : Option AABB3) (_enable_multi_threading : Bool) :
    Except ReconstructionError UniformGrid :=
  match reconstruction_domain_aabb kernel_evaluation_radius particle_positions
      particle_radius kernel_radius cube_size domain_aabb with
  | none => .error (.gridConstructionError .degenerateInput)
  | some aabb =>
    match UniformGrid.from_aabb aabb cube_size with
    | .error e => .error (.gridConstructionError e)
    | .ok grid => .ok grid

/-- Performs the surface reconstruction in place
(reconstruct_surface_inplace in lib.rs): clears the existing output mesh,
builds the grid (propagating failures, returning the handle state at that
point), then either runs the modelled octree visitor or clears the mesh again
and appends the modelled global reconstruction to it, setting the density map
of the non decomposed path to none. Returns the final state of the output
handle together with the call result. -/
def reconstruct_surface_inplace (M : PipelineModel) (particle_positions : List Vec3)
    (parameters : Parameters) (output_surface : SurfaceReconstruction) :
    SurfaceReconstruction × Except ReconstructionError Unit :=
  let s0 : SurfaceReconstruction := { output_surface with mesh := output_surface.mesh.clear }
  match grid_for_reconstruction M.kernel_evaluation_radius particle_positions
      parameters.particle_radius parameters.kernel_radius parameters.cube_size
      parameters.domain_aabb parameters.enable_multi_threading with
  | .error e => (s0, .error e)
  | .ok grid =>
    let s1 : SurfaceReconstruction := { s0 with grid := grid }
    if parameters.spatial_decomposition.isSome then
      let r := M.octree_result particle_positions parameters grid
      ({ s1 with mesh := r.1, octree := some r.2.1, density_map := r.2.2 }, .ok ())
    else
      let wl := s1.workspace.get_local_with_capacity particle_positions.length
      let s2 : SurfaceReconstruction := { s1 with workspace := wl.1, mesh := s1.mesh.clear }
      let appended := s2.mesh.append (M.single_surface particle_positions grid parameters)
      ({ s2 with mesh := appended, density_map := none }, .ok ())

/-- Performs a marching cubes surface reconstruction
(reconstruct_surface in lib.rs): runs the in place reconstruction on a default
surface and returns the surface on success; on failure no surface is
returned. -/
def reconstruct_surface (M : PipelineModel) (particle_positions : List Vec3)
    (parameters : Parameters) : Except ReconstructionError SurfaceReconstruction :=
  match reconstruct_surface_inplace M particle_positions parameters
      SurfaceReconstruction.default with
  | (s, .ok ()) => .ok s
  | (_, .error e) => .error e


/-- An example pipeline model used to evaluate the claims on concrete inputs:
the kernel evaluation radius is kernel radius plus cube size, the modelled
reconstruction stages produce empty meshes. -/
def modelExample : PipelineModel :=
  ⟨fun h c => h + c, fun _ _ _ => TriMesh3d.empty,
   fun _ _ _ => (TriMesh3d.empty, ⟨[], ⟨⟨0, 0, 0⟩, ⟨1, 1, 1⟩⟩⟩, none)⟩

/-- Example parameters without a supplied domain AABB (the S2 scenario values
of the spec). -/
def paramsExample : Parameters :=
  ⟨1/2, 1000, 2, none, 1/2, 3/5, none, false, none⟩

/-- The unit box. -/
def unitBox : AABB3 := ⟨⟨0, 0, 0⟩, ⟨1, 1, 1⟩⟩

/-- Example parameters with a supplied unit box domain AABB. -/
def paramsDomainExample : Parameters :=
  ⟨1, 1000, 1, none, 1/2, 3/5, some unitBox, false, none⟩

/-- C8: cloning a reconstruction workspace returns the default empty
workspace, with an empty global densities buffer and no thread local scratch
buffers, never a deep copy; hence the workspace inside every cloned
reconstruction handle is the default empty workspace. -/
theorem workspace_clone_is_default_empty :
    ∀ w : ReconstructionWorkspace,
      w.clone = ReconstructionWorkspace.default ∧
      w.clone.global_densities = [] ∧
      w.clone.local_workspaces = [] ∧
      ∀ s : SurfaceReconstruction, s.clone.workspace = ReconstructionWorkspace.default :=
  fun _w => ⟨rfl, rfl, rfl, fun _s => rfl⟩

/-- C4: for the empty particle list (with no externally supplied domain AABB,
as in scenario S1) the in place reconstruction fails with the DegenerateInput
error and leaves the output mesh empty, and the one shot reconstruction fails
with the same error producing no mesh output. -/
theorem reconstruct_surface_empty_input_degenerate :
    ∀ (M : PipelineModel) (parameters : Parameters) (s : SurfaceReconstruction),
      parameters.domain_aabb = none →
      (reconstruct_surface_inplace M [] parameters s).2 =
        .error (.gridConstructionError .degenerateInput) ∧
      ((reconstruct_surface_inplace M [] parameters s).1).mesh = TriMesh3d.empty ∧
      reconstruct_surface M [] parameters =
        .error (.gridConstructionError .degenerateInput) := by
  intro M parameters s h
  simp [reconstruct_surface, reconstruct_surface_inplace, grid_for_reconstruction,
        reconstruction_domain_aabb, AABB3.from_points, h, TriMesh3d.clear]

/-- C4 witness: the degenerate empty input on the concrete example model and
parameters. -/
theorem reconstruct_surface_empty_input_degenerate_witness :
    paramsExample.domain_aabb = none ∧
    reconstruct_surface modelExample [] paramsExample =
      .error (.gridConstructionError .degenerateInput) :=
  ⟨rfl, (reconstruct_surface_empty_input_degenerate modelExample paramsExample
      SurfaceReconstruction.default rfl).2.2⟩


/-- C7: the in place reconstruction clears the handle's previous mesh contents
before refilling, so the mesh stored in the handle after a successful call
equals the mesh produced by the same call on a freshly defaulted handle. -/
theorem reconstruct_inplace_mesh_independent_of_previous :
    ∀ (M : PipelineModel) (particle_positions : List Vec3) (parameters : Parameters)
      (s : SurfaceReconstruction),
      (reconstruct_surface_inplace M particle_positions parameters s).2 = .ok () →
      ((reconstruct_surface_inplace M particle_positions parameters s).1).mesh =
        ((reconstruct_surface_inplace M particle_positions parameters
            SurfaceReconstruction.default).1).mesh := by
  intro M particle_positions parameters s _hok
  unfold reconstruct_surface_inplace
  cases hg : grid_for_reconstruction M.kernel_evaluation_radius particle_positions
      parameters.particle_radius parameters.kernel_radius parameters.cube_size
      parameters.domain_aabb parameters.enable_multi_threading with
  | error e => simp [TriMesh3d.clear]
  | ok grid => cases hsd : parameters.spatial_decomposition.isSome <;>
      simp [hsd, TriMesh3d.clear]

/-- A previously filled reconstruction handle used to exercise the clearing
behavior on a concrete input. -/
def dirtySurfaceExample : SurfaceReconstruction :=
  ⟨UniformGrid.new_zero, some ⟨[3], unitBox⟩, some ([(7, 2)] : List (Int × ℚ)),
   ⟨[⟨0, 0, 0⟩, ⟨1, 0, 0⟩, ⟨0, 1, 0⟩], [(0, 1, 2)]⟩, ⟨[1, 2], []⟩⟩

/-- C7 witness: a successful call on a dirty handle produces the same mesh as
the call on a default handle. -/
theorem reconstruct_inplace_mesh_independent_of_previous_witness :
    (reconstruct_surface_inplace modelExample [] paramsDomainExample
        dirtySurfaceExample).2 = .ok () ∧
    ((reconstruct_surface_inplace modelExample [] paramsDomainExample
        dirtySurfaceExample).1).mesh =
      ((reconstruct_surface_inplace modelExample [] paramsDomainExample
          SurfaceReconstruction.default).1).mesh :=
  ⟨by norm_num [reconstruct_surface_inplace, grid_for_reconstruction,
      reconstruction_domain_aabb, UniformGrid.from_aabb, paramsDomainExample, unitBox,
      modelExample, I64_MAX],
   reconstruct_inplace_mesh_independent_of_previous modelExample [] paramsDomainExample
      dirtySurfaceExample
      (by norm_num [reconstruct_surface_inplace, grid_for_reconstruction,
        reconstruction_domain_aabb, UniformGrid.from_aabb, paramsDomainExample, unitBox,
        modelExample, I64_MAX])⟩

/-- C10: whenever the one shot reconstruction succeeds with parameters whose
spatial decomposition is none (the non decomposed path starting from a default
handle), the returned result carries no density map and no octree. -/
theorem reconstruct_surface_global_path_no_density_map_no_octree :
    ∀ (M : PipelineModel) (particle_positions : List Vec3) (parameters : Parameters)
      (r : SurfaceReconstruction),
      parameters.spatial_decomposition = none →
      reconstruct_surface M particle_positions parameters = .ok r →
      r.density_map = none ∧ r.octree = none := by
  intro M particle_positions parameters r hsd hok
  unfold reconstruct_surface reconstruct_surface_inplace at hok
  cases hg : grid_for_reconstruction M.kernel_evaluation_radius particle_positions
      parameters.particle_radius parameters.kernel_radius parameters.cube_size
      parameters.domain_aabb parameters.enable_multi_threading with
  | error e => rw [hg] at hok; simp at hok
  | ok grid =>
    rw [hg] at hok
    simp [hsd, SurfaceReconstruction.default] at hok
    subst hok
    constructor <;> rfl

/-- C10 witness: the concrete non decomposed reconstruction succeeds and its
result has no density map and no octree. -/
theorem reconstruct_surface_global_path_witness :
    paramsDomainExample.spatial_decomposition = none ∧
    ((reconstruct_surface_inplace modelExample [] paramsDomainExample
        SurfaceReconstruction.default).1).density_map = none ∧
    ((reconstruct_surface_inplace modelExample [] paramsDomainExample
        SurfaceReconstruction.default).1).octree = none :=
  ⟨rfl, reconstruct_surface_global_path_no_density_map_no_octree modelExample []
      paramsDomainExample
      ((reconstruct_surface_inplace modelExample [] paramsDomainExample
          SurfaceReconstruction.default).1) rfl
      (by norm_num [reconstruct_surface, reconstruct_surface_inplace,
        grid_for_reconstruction, reconstruction_domain_aabb, UniformGrid.from_aabb,
        paramsDomainExample, unitBox, modelExample, I64_MAX])⟩


/-- Growing an AABB twice in sequence equals growing once by the sum of the
margins. -/
theorem AABB3.grow_grow (a : AABB3) (d1 d2 : ℚ) :
    (a.grow_uniformly d1).grow_uniformly d2 = a.grow_uniformly (d1 + d2) := by
  unfold AABB3.grow_uniformly
  congr 1 <;> congr 1 <;> ring

/-- C5 counterexample: a domain AABB accepted from the domain_aabb parameter is
used to construct the grid unchanged; on the concrete input it differs from
the box grown uniformly by particle radius plus kernel evaluation radius that
the claim requires for every call. -/
theorem domain_aabb_used_ungrown_counterexample :
    reconstruction_domain_aabb modelExample.kernel_evaluation_radius [⟨0, 0, 0⟩] 1 1 1
        (some unitBox) = some unitBox ∧
    unitBox ≠ unitBox.grow_uniformly (1 + modelExample.kernel_evaluation_radius 1 1) := by
  constructor
  · rfl
  · norm_num [unitBox, AABB3.grow_uniformly, modelExample, AABB3.mk.injEq, Vec3.mk.injEq]

/-- C5 amended: a domain AABB accepted from the domain_aabb parameter is used
to construct the grid unchanged, while a domain AABB built from the particle
positions is grown uniformly by particle radius plus the kernel evaluation
radius before the grid is built; in both cases the grid is constructed from
exactly this AABB. -/
theorem reconstruction_domain_aabb_spec :
    ∀ (kr : ℚ → ℚ → ℚ) (particle_positions : List Vec3)
      (particle_radius kernel_radius cube_size : ℚ) (domain_aabb : Option AABB3),
      (∀ a, domain_aabb = some a →
        reconstruction_domain_aabb kr particle_positions particle_radius kernel_radius
          cube_size domain_aabb = some a) ∧
      (∀ b, domain_aabb = none → AABB3.from_points particle_positions = some b →
        reconstruction_domain_aabb kr particle_positions particle_radius kernel_radius
          cube_size domain_aabb =
          some (b.grow_uniformly (particle_radius + kr kernel_radius cube_size))) ∧
      (∀ a mt, reconstruction_domain_aabb kr particle_positions particle_radius
          kernel_radius cube_size domain_aabb = some a →
        grid_for_reconstruction kr particle_positions particle_radius kernel_radius
          cube_size domain_aabb mt =
          (UniformGrid.from_aabb a cube_size).mapError
            ReconstructionError.gridConstructionError) := by
  intro kr particle_positions particle_radius kernel_radius cube_size domain_aabb
  refine ⟨?_, ?_, ?_⟩
  · intro a ha
    subst ha
    rfl
  · intro b hdom hfp
    subst hdom
    simp [reconstruction_domain_aabb, hfp, AABB3.grow_grow]
  · intro a mt ha
    unfold grid_for_reconstruction
    rw [ha]
    cases h2 : UniformGrid.from_aabb a cube_size <;> simp [h2, Except.mapError]

/-- C5 amended witness: on a single particle at the origin without a supplied
domain AABB, the used box is the particle box grown by particle radius plus
the kernel evaluation radius. -/
theorem reconstruction_domain_aabb_spec_witness :
    AABB3.from_points [⟨0, 0, 0⟩] = some ⟨⟨0, 0, 0⟩, ⟨0, 0, 0⟩⟩ ∧
    reconstruction_domain_aabb modelExample.kernel_evaluation_radius [⟨0, 0, 0⟩] 1 1 1
        none =
      some (AABB3.grow_uniformly ⟨⟨0, 0, 0⟩, ⟨0, 0, 0⟩⟩
        (1 + modelExample.kernel_evaluation_radius 1 1)) :=
  ⟨rfl, (reconstruction_domain_aabb_spec modelExample.kernel_evaluation_radius
      [⟨0, 0, 0⟩] 1 1 1 none).2.1 ⟨⟨0, 0, 0⟩, ⟨0, 0, 0⟩⟩ rfl rfl⟩


/-- map_option fails exactly when the value is present and fails to convert. -/
theorem map_option_eq_none_iff (f : α → Option β) (x : Option α) :
    map_option f x = none ↔ ∃ r, x = some r ∧ f r = none := by
  cases x <;> simp [map_option]

/-- The spatial decomposition conversion fails exactly when the ghost particle
safety factor is present and fails to convert. -/
theorem sd_try_convert_eq_none_iff (conv : ℚ → Option ℚ)
    (sd : SpatialDecompositionParameters) :
    sd.try_convert conv = none ↔
      ∃ g, sd.ghost_particle_safety_factor = some g ∧ conv g = none := by
  simp [SpatialDecompositionParameters.try_convert, Option.map_eq_none',
        map_option_eq_none_iff]

/-- A successful spatial decomposition conversion keeps the subdivision
criterion and the stitching flag. -/
theorem map_option_sd_some (conv : ℚ → Option ℚ)
    (x y : Option SpatialDecompositionParameters)
    (h : map_option (SpatialDecompositionParameters.try_convert conv) x = some y) :
    y.map (fun sd => sd.subdivision_criterion) =
      x.map (fun sd => sd.subdivision_criterion) ∧
    y.map (fun sd => sd.enable_stitching) = x.map (fun sd => sd.enable_stitching) := by
  cases x with
  | none =>
    simp [map_option] at h
    subst h
    simp
  | some sd =>
    simp only [map_option, Option.map_eq_some'] at h
    obtain ⟨q, hq, rfl⟩ := h
    simp only [SpatialDecompositionParameters.try_convert, Option.map_eq_some'] at hq
    obtain ⟨g, _hg, rfl⟩ := hq
    simp


/-- C6: Parameters::try_convert returns none if and only if at least one
numeric field (particle radius, rest density, kernel radius, splash detection
radius if present, cube size, iso surface threshold, domain AABB if present,
ghost particle safety factor if present) fails its checked conversion;
otherwise it returns some parameters with every numeric field converted and
the boolean fields and the subdivision criterion unchanged. -/
theorem parameters_try_convert_spec :
    ∀ (conv : ℚ → Option ℚ) (p : Parameters),
      (p.try_convert conv = none ↔
        conv p.particle_radius = none ∨
        conv p.rest_density = none ∨
        conv p.kernel_radius = none ∨
        (∃ r, p.splash_detection_radius = some r ∧ conv r = none) ∨
        conv p.cube_size = none ∨
        conv p.iso_surface_threshold = none ∨
        (∃ a, p.domain_aabb = some a ∧ AABB3.try_convert conv a = none) ∨
        (∃ sd, p.spatial_decomposition = some sd ∧
          ∃ g, sd.ghost_particle_safety_factor = some g ∧ conv g = none)) ∧
      ∀ q, p.try_convert conv = some q →
        conv p.particle_radius = some q.particle_radius ∧
        conv p.rest_density = some q.rest_density ∧
        conv p.kernel_radius = some q.kernel_radius ∧
        map_option conv p.splash_detection_radius = some q.splash_detection_radius ∧
        conv p.cube_size = some q.cube_size ∧
        conv p.iso_surface_threshold = some q.iso_surface_threshold ∧
        map_option (AABB3.try_convert conv) p.domain_aabb = some q.domain_aabb ∧
        map_option (SpatialDecompositionParameters.try_convert conv)
          p.spatial_decomposition = some q.spatial_decomposition ∧
        q.enable_multi_threading = p.enable_multi_threading ∧
        q.spatial_decomposition.map (fun sd => sd.subdivision_criterion) =
          p.spatial_decomposition.map (fun sd => sd.subdivision_criterion) ∧
        q.spatial_decomposition.map (fun sd => sd.enable_stitching) =
          p.spatial_decomposition.map (fun sd => sd.enable_stitching) := by
  intro conv p
  have e1 : (∃ r, p.splash_detection_radius = some r ∧ conv r = none) ↔
      map_option conv p.splash_detection_radius = none :=
    (map_option_eq_none_iff conv p.splash_detection_radius).symm
  have e2 : (∃ a, p.domain_aabb = some a ∧ AABB3.try_convert conv a = none) ↔
      map_option (AABB3.try_convert conv) p.domain_aabb = none :=
    (map_option_eq_none_iff (AABB3.try_convert conv) p.domain_aabb).symm
  have e3 : (∃ sd, p.spatial_decomposition = some sd ∧
      ∃ g, sd.ghost_particle_safety_factor = some g ∧ conv g = none) ↔
      map_option (SpatialDecompositionParameters.try_convert conv)
        p.spatial_decomposition = none := by
    rw [map_option_eq_none_iff]
    exact exists_congr fun sd =>
      and_congr_right fun _ => (sd_try_convert_eq_none_iff conv sd).symm
  constructor
  · rw [e1, e2, e3]
    rcases h1 : conv p.particle_radius with _ | v1
    · simp [Parameters.try_convert, h1]
    rcases h2 : conv p.rest_density with _ | v2
    · simp [Parameters.try_convert, h1, h2]
    rcases h3 : conv p.kernel_radius with _ | v3
    · simp [Parameters.try_convert, h1, h2, h3]
    rcases h4 : map_option conv p.splash_detection_radius with _ | v4
    · simp [Parameters.try_convert, h1, h2, h3, h4]
    rcases h5 : conv p.cube_size with _ | v5
    · simp [Parameters.try_convert, h1, h2, h3, h4, h5]
    rcases h6 : conv p.iso_surface_threshold with _ | v6
    · simp [Parameters.try_convert, h1, h2, h3, h4, h5, h6]
    rcases h7 : map_option (AABB3.try_convert conv) p.domain_aabb with _ | v7
    · simp [Parameters.try_convert, h1, h2, h3, h4, h5, h6, h7]
    rcases h8 : map_option (SpatialDecompositionParameters.try_convert conv)
        p.spatial_decomposition with _ | v8
    · simp [Parameters.try_convert, h1, h2, h3, h4, h5, h6, h7, h8]
    simp [Parameters.try_convert, h1, h2, h3, h4, h5, h6, h7, h8]
  · intro q hq
    rcases h1 : conv p.particle_radius with _ | v1
    · simp [Parameters.try_convert, h1] at hq
    rcases h2 : conv p.rest_density with _ | v2
    · simp [Parameters.try_convert, h1, h2] at hq
    rcases h3 : conv p.kernel_radius with _ | v3
    · simp [Parameters.try_convert, h1, h2, h3] at hq
    rcases h4 : map_option conv p.splash_detection_radius with _ | v4
    · simp [Parameters.try_convert, h1, h2, h3, h4] at hq
    rcases h5 : conv p.cube_size with _ | v5
    · simp [Parameters.try_convert, h1, h2, h3, h4, h5] at hq
    rcases h6 : conv p.iso_surface_threshold with _ | v6
    · simp [Parameters.try_convert, h1, h2, h3, h4, h5, h6] at hq
    rcases h7 : map_option (AABB3.try_convert conv) p.domain_aabb with _ | v7
    · simp [Parameters.try_convert, h1, h2, h3, h4, h5, h6, h7] at hq
    rcases h8 : map_option (SpatialDecompositionParameters.try_convert conv)
        p.spatial_decomposition with _ | v8
    · simp [Parameters.try_convert, h1, h2, h3, h4, h5, h6, h7, h8] at hq
    simp only [Parameters.try_convert, h1, h2, h3, h4, h5, h6, h7, h8,
      Option.some_bind, Option.some.injEq] at hq
    subst hq
    have hpres := map_option_sd_some conv p.spatial_decomposition v8 h8
    refine ⟨?_, ?_, ?_, ?_, ?_, ?_, ?_, ?_, ?_, ?_, ?_⟩ <;>
      simp [h1, h2, h3, h4, h5, h6, h7, h8, hpres.1, hpres.2]

/-- Example parameters with every optional field present, used to evaluate the
conversion on a concrete input. -/
def paramsFullExample : Parameters :=
  ⟨1/2, 1000, 2, some (3/4), 1/2, 3/5, some unitBox, true,
   some ⟨SubdivisionCriterion.maxParticleCount 64, some 1, true⟩⟩

/-- C6 witness: with the identity checked conversion the conversion succeeds
on the concrete example and converts the particle radius. -/
theorem parameters_try_convert_spec_witness :
    Parameters.try_convert some paramsFullExample = some paramsFullExample ∧
    some paramsFullExample.particle_radius = some paramsFullExample.particle_radius :=
  ⟨rfl, ((parameters_try_convert_spec some paramsFullExample).2 paramsFullExample rfl).1⟩


/-- C9 witness: the safety bounds instantiated on a concrete corner
configuration, discharging the in bounds side condition at i equal 4. -/
theorem marching_cubes_lut_safety_witness :
    3 * 4 + 2 <
      (get_marching_cubes_triangulation_raw
        [true, false, false, false, false, false, false, false]).length :=
  (marching_cubes_lut_safety true false false false false false false
      false).2.2.2.1 4 (by decide)

end Splashsurf

